import Mathlib

/-!
Shallow embedding of the PBX telephone-system sources
(`src/hw5/src/tu.c`, `src/hw5/src/pbx.c`, `src/hw5/src/server.c`,
`src/hw5/include/pbx_registry.h`).

TUs are heap objects identified by pointers in C; here a TU is identified
by a natural-number id, and the heap is an association list from ids to TU
records.  Socket writes (`dprintf(fd, ...)`) are recorded as an append-only
log of (fd, line) pairs.  Semaphore operations are no-ops in this
sequential embedding; each C function is modelled as a function from the
system state to the new system state paired with its `int` return value.
-/

/-- The seven TU states of `pbx.h` / `pbx_registry.h`. -/
inductive TUState where
  | onHook
  | ringing
  | dialTone
  | ringBack
  | busySignal
  | connected
  | error
deriving DecidableEq

/-- `struct tu` of `pbx_registry.h`: fd, target (peer pointer, as an
optional heap id), state, ref_count.  The semaphore is dropped. -/
structure TU where
  fd : Int
  target : Option Nat
  state : TUState
  ref_count : Int
deriving DecidableEq

/-- The whole system: the TU heap, the `PBX_REGISTRY` slot array of
`struct pbx` (each slot a TU pointer or NULL), and the log of socket
writes in program order. -/
structure Sys where
  tus : List (Nat × TU)
  registry : List (Option Nat)
  out : List (Int × String)
deriving DecidableEq

/-- Dereference a TU pointer: look the id up in the heap. -/
def getTU (s : Sys) (id : Nat) : Option TU :=
  (s.tus.find? (fun p => p.1 == id)).map Prod.snd

/-- Store through a TU pointer: replace the record held at this id. -/
def setTU (s : Sys) (id : Nat) (t : TU) : Sys :=
  ⟨s.tus.map (fun p => if p.1 = id then (id, t) else p), s.registry, s.out⟩

/-- `dprintf(fd, line)`: append one line to the write log. -/
def write (s : Sys) (fd : Int) (line : String) : Sys :=
  ⟨s.tus, s.registry, s.out ++ [(fd, line)]⟩

/-- Record-update helper: a TU with a new state. -/
def withState (t : TU) (st : TUState) : TU :=
  ⟨t.fd, t.target, st, t.ref_count⟩

/-- Record-update helper: a TU with a new state and a new target. -/
def withStateTarget (t : TU) (st : TUState) (tg : Option Nat) : TU :=
  ⟨t.fd, tg, st, t.ref_count⟩

/-- The fd stored at `tu->target->fd`.  A NULL or dangling dereference is
undefined behaviour in the C source; it is given the junk value 0 here and
is never exercised by the theorems below. -/
def derefFd (s : Sys) (tg : Option Nat) : Int :=
  match tg with
  | none => 0
  | some pid =>
    match getTU s pid with
    | none => 0
    | some pt => pt.fd

/-- The notification line the repeated `dprintf` chains of `tu.c` emit for
a TU's current state (lines 168-185, 203-220, 279-293, 425-445; each
chain prints exactly the line below for every state it can be reached in). -/
def stateLine (s : Sys) (t : TU) : String :=
  match t.state with
  | .onHook => "ON HOOK " ++ toString t.fd ++ "\r\n"
  | .ringing => "RINGING\r\n"
  | .dialTone => "DIAL TONE\r\n"
  | .ringBack => "RING BACK\r\n"
  | .busySignal => "BUSY SIGNAL\r\n"
  | .connected => "CONNECTED " ++ toString (derefFd s t.target) ++ "\r\n"
  | .error => "ERROR\r\n"

/-- `tu_init` (tu.c lines 20-31), successful-malloc case: a fresh TU in
TU_ON_HOOK with no target and ref_count 1. -/
def tu_init (s : Sys) (id : Nat) (fd : Int) : Sys :=
  ⟨s.tus ++ [(id, ⟨fd, none, .onHook, 1⟩)], s.registry, s.out⟩

/-- `tu_ref` (tu.c lines 40-47): increment the reference count. -/
def tu_ref (s : Sys) (id : Nat) : Sys :=
  match getTU s id with
  | none => s
  | some t => setTU s id ⟨t.fd, t.target, t.state, t.ref_count + 1⟩

/-- `tu_unref` (tu.c lines 56-70): decrement the reference count, freeing
the TU (removing it from the heap) when the count reaches 0. -/
def tu_unref (s : Sys) (id : Nat) : Sys :=
  match getTU s id with
  | none => s
  | some t =>
    if t.ref_count - 1 = 0 then
      ⟨(s.tus.filter (fun p => ¬(p.1 = id))), s.registry, s.out⟩
    else
      setTU s id ⟨t.fd, t.target, t.state, t.ref_count - 1⟩

/-- `tu_fileno` (tu.c lines 81-86): -1 for NULL, else the stored fd.
A dangling (freed) pointer is undefined behaviour; junk value -1. -/
def tu_fileno (s : Sys) (tu : Option Nat) : Int :=
  match tu with
  | none => -1
  | some id =>
    match getTU s id with
    | none => -1
    | some t => t.fd

/-- `tu_extension` (tu.c lines 98-100): literally `return tu_fileno(tu);`. -/
def tu_extension (s : Sys) (tu : Option Nat) : Int :=
  tu_fileno s tu

/-- `tu_dial` (tu.c lines 150-251).  Both arguments are TU pointers
(possibly NULL).  NULL/dangling dereferences other than the ones the code
checks are modelled as an effect-free -1 return (in C they would crash);
no theorem below exercises them. -/
def tu_dial (s : Sys) (tu : Option Nat) (target : Option Nat) : Sys × Int :=
  match tu with
  | none => (s, -1)
  | some id =>
    match getTU s id with
    | none => (s, -1)
    | some t =>
      match target with
      | none =>
        -- lines 158-189: caller could not determine a target
        if t.state = .dialTone then
          (write (setTU s id (withState t .error)) t.fd "ERROR\r\n", -1)
        else
          (write s t.fd (stateLine s t), 0)
      | some tgt =>
        -- lines 190-196: tu == target, checked BEFORE the state test
        if id = tgt then
          (write (setTU s id (withState t .busySignal)) t.fd "BUSY SIGNAL\r\n", 0)
        else
          -- line 199: P(&(target->mutex)) dereferences target
          match getTU s tgt with
          | none => (s, -1)
          | some tt =>
            -- lines 201-224: originating TU not in TU_DIAL_TONE
            if t.state ≠ .dialTone then
              (write s t.fd (stateLine s t), 0)
            -- lines 225-232: target busy
            else if tt.target.isSome ∨ tt.state ≠ .onHook then
              (write (setTU s id (withState t .busySignal)) t.fd "BUSY SIGNAL\r\n", 0)
            -- lines 233-246: pair the two TUs
            else
              let s1 := setTU (setTU s id (withStateTarget t .ringBack (some tgt)))
                          tgt (withStateTarget tt .ringing (some id))
              let s2 := write (write s1 t.fd "RING BACK\r\n") tt.fd "RINGING\r\n"
              (tu_ref (tu_ref s2 id) tgt, 0)

/-- `tu_pickup` (tu.c lines 270-318). -/
def tu_pickup (s : Sys) (tu : Option Nat) : Sys × Int :=
  match tu with
  | none => (s, -1)
  | some id =>
    match getTU s id with
    | none => (s, -1)
    | some t =>
      -- lines 278-296: neither TU_ON_HOOK nor TU_RINGING
      if t.state ≠ .onHook ∧ t.state ≠ .ringing then
        (write s t.fd (stateLine s t), 0)
      -- lines 298-303
      else if t.state = .onHook then
        (write (setTU s id (withState t .dialTone)) t.fd "DIAL TONE\r\n", 0)
      -- lines 305-314: TU_RINGING, dereferences tu->target
      else
        match t.target with
        | none => (s, -1)
        | some pid =>
          match getTU s pid with
          | none => (s, -1)
          | some pt =>
            let s1 := setTU (setTU s id (withState t .connected)) pid (withState pt .connected)
            let s2 := write (write s1 t.fd ("CONNECTED " ++ toString pt.fd ++ "\r\n"))
                        pt.fd ("CONNECTED " ++ toString t.fd ++ "\r\n")
            (s2, 0)

/-- The `tu->target = NULL` store performed by `tu_hangup` (tu.c lines
360 and 377), applied to whatever the heap currently holds at `id`. -/
def clearTarget (s : Sys) (id : Nat) : Sys :=
  match getTU s id with
  | none => s
  | some u => setTU s id (withStateTarget u u.state none)

/-- `tu_hangup` (tu.c lines 341-394). -/
def tu_hangup (s : Sys) (tu : Option Nat) : Sys × Int :=
  match tu with
  | none => (s, -1)
  | some id =>
    match getTU s id with
    | none => (s, -1)
    | some t =>
      -- lines 349-364: TU_CONNECTED or TU_RINGING
      if t.state = .connected ∨ t.state = .ringing then
        match t.target with
        | none => (s, -1)
        | some pid =>
          match getTU s pid with
          | none => (s, -1)
          | some pt =>
            let s1 := setTU (setTU s id (withState t .onHook))
                        pid (withStateTarget pt .dialTone none)
            let s2 := write (write s1 t.fd ("ON HOOK " ++ toString t.fd ++ "\r\n"))
                        pt.fd "DIAL TONE\r\n"
            (tu_unref (clearTarget (tu_unref s2 pid) id) id, 0)
      -- lines 366-380: TU_RING_BACK
      else if t.state = .ringBack then
        match t.target with
        | none => (s, -1)
        | some pid =>
          match getTU s pid with
          | none => (s, -1)
          | some pt =>
            let s1 := setTU (setTU s id (withState t .onHook))
                        pid (withStateTarget pt .onHook none)
            let s2 := write (write s1 t.fd ("ON HOOK " ++ toString t.fd ++ "\r\n"))
                        pt.fd ("ON HOOK " ++ toString pt.fd ++ "\r\n")
            (tu_unref (clearTarget (tu_unref s2 pid) id) id, 0)
      -- lines 382-387
      else if t.state = .dialTone ∨ t.state = .busySignal ∨ t.state = .error then
        (write (setTU s id (withState t .onHook)) t.fd ("ON HOOK " ++ toString t.fd ++ "\r\n"), 0)
      -- lines 388-391: TU_ON_HOOK, no write at all
      else
        (s, 0)

/-- `tu_chat` (tu.c lines 410-449).  Note the peer line is written with
the lowercase verb: `dprintf(tu->target->fd, "chat %s\r\n", msg)`. -/
def tu_chat (s : Sys) (tu : Option Nat) (msg : String) : Sys × Int :=
  match tu with
  | none => (s, -1)
  | some id =>
    match getTU s id with
    | none => (s, -1)
    | some t =>
      -- lines 418-421: not TU_CONNECTED, no write at all
      if t.state ≠ .connected then
        (s, -1)
      else
        match t.target with
        | none => (s, -1)
        | some pid =>
          match getTU s pid with
          | none => (s, -1)
          | some pt =>
            let s1 := write s pt.fd ("chat " ++ msg ++ "\r\n")
            (write s1 t.fd (stateLine s1 t), 0)

/-- `PBX_MAX_EXTENSIONS`.  Modelled from the spec: the constant lives in
`pbx.h`, which is not among the provided sources; §6 of the spec describes
it as a small compile-time bound, "e.g. 64".  None of the theorems below
depend on its exact value. -/
def PBX_MAX_EXTENSIONS : Nat := 64

/-- Index of the first NULL registry slot, as scanned by the loop of
`pbx_register` (pbx.c lines 85-94). -/
def firstEmptySlot : List (Option Nat) → Option Nat
  | [] => none
  | none :: _ => some 0
  | some _ :: rest => (firstEmptySlot rest).map (fun i => i + 1)

/-- `pbx_register` (pbx.c lines 82-98): install the TU in the first empty
slot and write `ON HOOK <ext>` to fd `ext` (the C passes the fd as `ext`).
Note the source performs no `tu_ref` here. -/
def pbx_register (s : Sys) (tu : Nat) (ext : Int) : Sys × Int :=
  match firstEmptySlot s.registry with
  | none => (s, -1)
  | some i =>
    (write ⟨s.tus, s.registry.set i (some tu), s.out⟩ ext
      ("ON HOOK " ++ toString ext ++ "\r\n"), 0)

/-- The scan of pbx.c lines 151-158: the first registry slot (NULL slots
included) whose `tu_fileno` equals the dialed extension, or `none` when no
slot matches. -/
def findSlotWithFd (s : Sys) (ext : Int) : List (Option Nat) → Option (Option Nat)
  | [] => none
  | slot :: rest =>
    if tu_fileno s slot = ext then some slot else findSlotWithFd s ext rest

/-- The TU pointer `pbx_dial` ends up passing to `tu_dial`: the contents
of the first slot whose fileno matches, and NULL when no slot matches
(pbx.c lines 151-162). -/
def resolveTarget (s : Sys) (ext : Int) : Option Nat :=
  match findSlotWithFd s ext s.registry with
  | none => none
  | some slot => slot

/-- The scan of pbx.c lines 147-149: is this TU present in some registry
slot? -/
def isRegistered (s : Sys) (tu : Nat) : Bool :=
  s.registry.contains (some tu)

/-- `pbx_dial` (pbx.c lines 144-168). -/
def pbx_dial (s : Sys) (tu : Nat) (ext : Int) : Sys × Int :=
  if isRegistered s tu then
    ((tu_dial s (some tu) (resolveTarget s ext)).1, 0)
  else
    (s, -1)

/-- C `isspace` on the characters `atoi` skips. -/
def isSpaceC (c : Char) : Bool :=
  c = ' ' ∨ c = '\t' ∨ c = '\n' ∨ c = '\x0b' ∨ c = '\x0c' ∨ c = '\r'

/-- The digit-accumulation loop of C `atoi`: consume the longest leading
run of decimal digits. -/
def atoiDigits : List Char → Int → Int
  | [], acc => acc
  | c :: rest, acc =>
    if '0' ≤ c ∧ c ≤ '9' then
      atoiDigits rest (acc * 10 + (Int.ofNat c.toNat - Int.ofNat '0'.toNat))
    else acc

/-- C `atoi`, as used by the dispatcher (server.c line 145): skip leading
whitespace, then an optional sign, then the longest run of digits; 0 when
there are no digits. -/
def atoi (str : String) : Int :=
  match str.toList.dropWhile isSpaceC with
  | '-' :: rest => - atoiDigits rest 0
  | '+' :: rest => atoiDigits rest 0
  | cs => atoiDigits cs 0

/-- The dispatcher's handling of a `dial <arg>` line with a single-token
argument (server.c lines 144-147): `pbx_dial(pbx, tu, atoi(arg))`. -/
def dispatch_dial (s : Sys) (tu : Nat) (arg : String) : Sys × Int :=
  pbx_dial s tu (atoi arg)

/-- The lines this operation appended to the log for the given fd, in
order: the write log of `s2` beyond that of `s1`, filtered to `fd`. -/
def deltaTo (s1 s2 : Sys) (fd : Int) : List String :=
  ((s2.out.drop s1.out.length).filter (fun p => p.1 = fd)).map Prod.snd

/-- States in which the spec's invariant P2 requires a peer. -/
def stateNeedsPeer : TUState → Bool
  | .ringing => true
  | .ringBack => true
  | .connected => true
  | _ => false

/-- The three allowed paired state shapes of invariant P2. -/
def pairOK : TUState → TUState → Bool
  | .ringBack, .ringing => true
  | .ringing, .ringBack => true
  | .connected, .connected => true
  | _, _ => false

/-- Invariant P2 of the spec, as a decidable predicate over the heap:
every TU has a peer exactly when its state requires one, and every
existing pair has one of the three allowed state shapes. -/
def P2holds (s : Sys) : Bool :=
  s.tus.all (fun p =>
    (p.2.target.isSome == stateNeedsPeer p.2.state) &&
    (match p.2.target with
     | none => true
     | some pid =>
       match getTU s pid with
       | none => false
       | some pt => pairOK p.2.state pt.state))

/-- Well-formedness of one TU used as a hypothesis by the per-operation
theorems: if the state requires a peer the target pointer is set, and a
set target pointer dereferences to a live TU on a different fd. -/
def tuWf (s : Sys) (t : TU) : Bool :=
  match t.target with
  | none => !(stateNeedsPeer t.state)
  | some pid =>
    match getTU s pid with
    | none => false
    | some pt => pt.fd != t.fd

/-- A dial-target string is a well-formed decimal integer.  Modelled from
the spec: §4.4 commands take `dial <digits>` with a decimal-integer
argument; this is the spec-side notion the dispatcher is claimed to test. -/
def specWellFormedDecimal (str : String) : Bool :=
  match str.toList with
  | [] => false
  | '-' :: rest => rest ≠ [] ∧ rest.all (fun c => '0' ≤ c ∧ c ≤ '9')
  | '+' :: rest => rest ≠ [] ∧ rest.all (fun c => '0' ≤ c ∧ c ≤ '9')
  | cs => cs.all (fun c => '0' ≤ c ∧ c ≤ '9')

/-- The empty system: no TUs, an all-NULL registry, no output. -/
def sysInit : Sys :=
  ⟨[], List.replicate PBX_MAX_EXTENSIONS none, []⟩

/-- Client A connects on fd 4: `tu_init` as done by `pbx_client_service`
(server.c lines 86-93). -/
def sA : Sys := tu_init sysInit 1 4

/-- A registered with `ext = connfd = 4` (server.c line 90). -/
def sAreg : Sys := (pbx_register sA 1 4).1

/-- Client B connects on fd 5 and registers. -/
def sABreg : Sys := (pbx_register (tu_init sAreg 2 5) 2 5).1

/-- A sends `pickup`: A is in DIAL_TONE. -/
def sPick : Sys := (tu_pickup sABreg (some 1)).1

/-- A sends `dial 5`: A in RING_BACK, B in RINGING, paired. -/
def sDial : Sys := (pbx_dial sPick 1 5).1

/-- B sends `pickup`: both CONNECTED. -/
def sConn : Sys := (tu_pickup sDial (some 2)).1

/-- A (CONNECTED to B) sends `dial 4`, i.e. dials itself. -/
def sSelfDial : Sys := (pbx_dial sConn 1 4).1

/-! ## Basic lemmas about the state operations -/

theorem getTU_write (s : Sys) (fd : Int) (l : String) (id : Nat) :
    getTU (write s fd l) id = getTU s id := rfl

theorem out_write (s : Sys) (fd : Int) (l : String) :
    (write s fd l).out = s.out ++ [(fd, l)] := rfl

theorem out_setTU (s : Sys) (id : Nat) (t : TU) :
    (setTU s id t).out = s.out := rfl

theorem derefFd_write (s : Sys) (fd : Int) (l : String) (tg : Option Nat) :
    derefFd (write s fd l) tg = derefFd s tg := by
  cases tg <;> rfl

theorem stateLine_write (s : Sys) (fd : Int) (l : String) (t : TU) :
    stateLine (write s fd l) t = stateLine s t := by
  cases h : t.state <;> simp [stateLine, h, derefFd_write]

theorem out_tu_ref (s : Sys) (id : Nat) : (tu_ref s id).out = s.out := by
  unfold tu_ref
  cases getTU s id <;> rfl

theorem out_tu_unref (s : Sys) (id : Nat) : (tu_unref s id).out = s.out := by
  unfold tu_unref
  cases getTU s id with
  | none => rfl
  | some t =>
    by_cases h : t.ref_count - 1 = 0 <;> simp [h, out_setTU]

theorem find?_map_set (l : List (Nat × TU)) (id : Nat) (t' : TU)
    (h : (l.find? (fun p => p.1 == id)).isSome) :
    (l.map (fun p => if p.1 = id then (id, t') else p)).find? (fun p => p.1 == id)
      = some (id, t') := by
  induction l with
  | nil => simp at h
  | cons p rest ih =>
    by_cases hp : p.1 = id
    · simp [List.find?, hp]
    · rw [List.find?_cons_of_neg _ (by simpa using hp)] at h
      simp only [List.map_cons, if_neg hp]
      rw [List.find?_cons_of_neg _ (by simpa using hp)]
      exact ih h

theorem find?_map_set_other (l : List (Nat × TU)) (id id' : Nat) (t' : TU)
    (h : id ≠ id') :
    (l.map (fun p => if p.1 = id' then (id', t') else p)).find? (fun p => p.1 == id)
      = l.find? (fun p => p.1 == id) := by
  induction l with
  | nil => rfl
  | cons p rest ih =>
    by_cases hp : p.1 = id'
    · rw [List.map_cons, if_pos hp, List.find?_cons_of_neg _ (by simpa using fun hc => h hc.symm),
        List.find?_cons_of_neg _ (by simp [hp]; exact fun hc => h hc.symm)]
      exact ih
    · rw [List.map_cons, if_neg hp]
      by_cases hq : p.1 = id
      · rw [List.find?_cons_of_pos _ (by simpa using hq), List.find?_cons_of_pos _ (by simpa using hq)]
      · rw [List.find?_cons_of_neg _ (by simpa using hq), List.find?_cons_of_neg _ (by simpa using hq)]
        exact ih

theorem getTU_set_self (s : Sys) (id : Nat) (t t' : TU)
    (h : getTU s id = some t) : getTU (setTU s id t') id = some t' := by
  unfold getTU at h ⊢
  unfold setTU
  rw [find?_map_set]
  · rfl
  · cases hf : s.tus.find? (fun p => p.1 == id) <;> rw [hf] at h <;> simp_all

theorem getTU_set_other (s : Sys) (id id' : Nat) (t' : TU) (h : id ≠ id') :
    getTU (setTU s id' t') id = getTU s id := by
  unfold getTU setTU
  rw [find?_map_set_other _ _ _ _ h]

theorem deltaTo_of_append (s s2 : Sys) (l : List (Int × String)) (fd : Int)
    (h : s2.out = s.out ++ l) :
    deltaTo s s2 fd = (l.filter (fun p => p.1 = fd)).map Prod.snd := by
  simp [deltaTo, h, List.drop_left]

theorem out_clearTarget (s : Sys) (id : Nat) : (clearTarget s id).out = s.out := by
  unfold clearTarget
  cases getTU s id <;> rfl

theorem tuWf_needsPeer (s : Sys) (t : TU) (hwf : tuWf s t = true)
    (hst : stateNeedsPeer t.state = true) : ∃ pid, t.target = some pid := by
  rcases htg : t.target with _ | pid
  · unfold tuWf at hwf
    rw [htg] at hwf
    simp [hst] at hwf
  · exact ⟨pid, rfl⟩

theorem tuWf_peer (s : Sys) (t : TU) (hwf : tuWf s t = true) (pid : Nat)
    (htg : t.target = some pid) :
    ∃ pt, getTU s pid = some pt ∧ pt.fd ≠ t.fd := by
  unfold tuWf at hwf
  rw [htg] at hwf
  rcases hgp : getTU s pid with _ | pt
  · simp [hgp] at hwf
  · refine ⟨pt, rfl, ?_⟩
    simp [hgp] at hwf
    exact hwf

/-! ## Notification lines written to the initiating TU, per operation -/

theorem pickup_delta (s : Sys) (id : Nat) (t : TU)
    (h : getTU s id = some t) (hwf : tuWf s t = true) :
    deltaTo s (tu_pickup s (some id)).1 t.fd =
      (match t.state with
       | .onHook => ["DIAL TONE\r\n"]
       | .ringing => ["CONNECTED " ++ toString (derefFd s t.target) ++ "\r\n"]
       | _ => [stateLine s t]) := by
  rcases hst : t.state with _ | _ | _ | _ | _ | _ | _
  case ringing =>
    obtain ⟨pid, htg⟩ := tuWf_needsPeer s t hwf (by rw [hst]; rfl)
    obtain ⟨pt, hgp, hfd⟩ := tuWf_peer s t hwf pid htg
    have hout : (tu_pickup s (some id)).1.out =
        s.out ++ [(t.fd, "CONNECTED " ++ toString pt.fd ++ "\r\n"),
                  (pt.fd, "CONNECTED " ++ toString t.fd ++ "\r\n")] := by
      simp [tu_pickup, h, hst, htg, hgp, out_write, out_setTU]
    rw [deltaTo_of_append _ _ _ _ hout]
    simp [hfd, derefFd, htg, hgp]
  all_goals
    first
    | (have hout : (tu_pickup s (some id)).1.out = s.out ++ [(t.fd, "DIAL TONE\r\n")] := by
         simp [tu_pickup, h, hst, out_write, out_setTU]
       rw [deltaTo_of_append _ _ _ _ hout]
       simp)
    | (have hout : (tu_pickup s (some id)).1.out = s.out ++ [(t.fd, stateLine s t)] := by
         simp [tu_pickup, h, hst, out_write, out_setTU]
       rw [deltaTo_of_append _ _ _ _ hout]
       simp)

theorem hangup_delta (s : Sys) (id : Nat) (t : TU)
    (h : getTU s id = some t) (hwf : tuWf s t = true) :
    deltaTo s (tu_hangup s (some id)).1 t.fd =
      (match t.state with
       | .onHook => []
       | _ => ["ON HOOK " ++ toString t.fd ++ "\r\n"]) := by
  rcases hst : t.state with _ | _ | _ | _ | _ | _ | _
  case onHook =>
    have hout : (tu_hangup s (some id)).1.out = s.out ++ [] := by
      simp [tu_hangup, h, hst]
    rw [deltaTo_of_append _ _ _ _ hout]
    simp
  case connected =>
    obtain ⟨pid, htg⟩ := tuWf_needsPeer s t hwf (by rw [hst]; rfl)
    obtain ⟨pt, hgp, hfd⟩ := tuWf_peer s t hwf pid htg
    have hout : (tu_hangup s (some id)).1.out =
        s.out ++ [(t.fd, "ON HOOK " ++ toString t.fd ++ "\r\n"), (pt.fd, "DIAL TONE\r\n")] := by
      simp [tu_hangup, h, hst, htg, hgp, out_tu_unref, out_clearTarget, out_write, out_setTU]
    rw [deltaTo_of_append _ _ _ _ hout]
    simp [hfd]
  case ringing =>
    obtain ⟨pid, htg⟩ := tuWf_needsPeer s t hwf (by rw [hst]; rfl)
    obtain ⟨pt, hgp, hfd⟩ := tuWf_peer s t hwf pid htg
    have hout : (tu_hangup s (some id)).1.out =
        s.out ++ [(t.fd, "ON HOOK " ++ toString t.fd ++ "\r\n"), (pt.fd, "DIAL TONE\r\n")] := by
      simp [tu_hangup, h, hst, htg, hgp, out_tu_unref, out_clearTarget, out_write, out_setTU]
    rw [deltaTo_of_append _ _ _ _ hout]
    simp [hfd]
  case ringBack =>
    obtain ⟨pid, htg⟩ := tuWf_needsPeer s t hwf (by rw [hst]; rfl)
    obtain ⟨pt, hgp, hfd⟩ := tuWf_peer s t hwf pid htg
    have hout : (tu_hangup s (some id)).1.out =
        s.out ++ [(t.fd, "ON HOOK " ++ toString t.fd ++ "\r\n"),
                  (pt.fd, "ON HOOK " ++ toString pt.fd ++ "\r\n")] := by
      simp [tu_hangup, h, hst, htg, hgp, out_tu_unref, out_clearTarget, out_write, out_setTU]
    rw [deltaTo_of_append _ _ _ _ hout]
    simp [hfd]
  all_goals
    have hout : (tu_hangup s (some id)).1.out =
        s.out ++ [(t.fd, "ON HOOK " ++ toString t.fd ++ "\r\n")] := by
      simp [tu_hangup, h, hst, out_write, out_setTU]
    rw [deltaTo_of_append _ _ _ _ hout]
    simp

theorem chat_delta (s : Sys) (id : Nat) (t : TU) (msg : String)
    (h : getTU s id = some t) (hwf : tuWf s t = true) :
    deltaTo s (tu_chat s (some id) msg).1 t.fd =
      (match t.state with
       | .connected => ["CONNECTED " ++ toString (derefFd s t.target) ++ "\r\n"]
       | _ => []) := by
  rcases hst : t.state with _ | _ | _ | _ | _ | _ | _
  case connected =>
    obtain ⟨pid, htg⟩ := tuWf_needsPeer s t hwf (by rw [hst]; rfl)
    obtain ⟨pt, hgp, hfd⟩ := tuWf_peer s t hwf pid htg
    have hout : (tu_chat s (some id) msg).1.out =
        s.out ++ [(pt.fd, "chat " ++ msg ++ "\r\n"), (t.fd, stateLine s t)] := by
      simp [tu_chat, h, hst, htg, hgp, out_write, stateLine_write]
    rw [deltaTo_of_append _ _ _ _ hout]
    simp [hfd, stateLine, hst, derefFd, htg, hgp]
  all_goals
    have hout : (tu_chat s (some id) msg).1.out = s.out ++ [] := by
      simp [tu_chat, h, hst]
    rw [deltaTo_of_append _ _ _ _ hout]
    simp

theorem dial_none_delta (s : Sys) (id : Nat) (t : TU)
    (h : getTU s id = some t) :
    deltaTo s (tu_dial s (some id) none).1 t.fd =
      (match t.state with
       | .dialTone => ["ERROR\r\n"]
       | _ => [stateLine s t]) := by
  rcases hst : t.state with _ | _ | _ | _ | _ | _ | _
  case dialTone =>
    have hout : (tu_dial s (some id) none).1.out = s.out ++ [(t.fd, "ERROR\r\n")] := by
      simp [tu_dial, h, hst, out_write, out_setTU]
    rw [deltaTo_of_append _ _ _ _ hout]
    simp
  all_goals
    have hout : (tu_dial s (some id) none).1.out = s.out ++ [(t.fd, stateLine s t)] := by
      simp [tu_dial, h, hst, out_write]
    rw [deltaTo_of_append _ _ _ _ hout]
    simp

theorem dial_self_delta (s : Sys) (id : Nat) (t : TU)
    (h : getTU s id = some t) :
    deltaTo s (tu_dial s (some id) (some id)).1 t.fd = ["BUSY SIGNAL\r\n"] := by
  have hout : (tu_dial s (some id) (some id)).1.out =
      s.out ++ [(t.fd, "BUSY SIGNAL\r\n")] := by
    simp [tu_dial, h, out_write, out_setTU]
  rw [deltaTo_of_append _ _ _ _ hout]
  simp

theorem find?_append_of_none (l : List (Nat × TU)) (x : Nat × TU) (id : Nat)
    (h : l.find? (fun p => p.1 == id) = none) :
    (l ++ [x]).find? (fun p => p.1 == id) = [x].find? (fun p => p.1 == id) := by
  induction l with
  | nil => rfl
  | cons p rest ih =>
    by_cases hp : p.1 = id
    · rw [List.find?_cons_of_pos _ (by simpa using hp)] at h
      exact absurd h (by simp)
    · rw [List.find?_cons_of_neg _ (by simpa using hp)] at h
      rw [List.cons_append, List.find?_cons_of_neg _ (by simpa using hp)]
      exact ih h

theorem getTU_tu_init (s : Sys) (id : Nat) (fd : Int) (h : getTU s id = none) :
    getTU (tu_init s id fd) id = some ⟨fd, none, .onHook, 1⟩ := by
  unfold getTU at h ⊢
  unfold tu_init
  have hn : s.tus.find? (fun p => p.1 == id) = none := by
    cases hf : s.tus.find? (fun p => p.1 == id)
    · rfl
    · rw [hf] at h
      simp_all
  simp [find?_append_of_none _ _ _ hn, List.find?]

theorem findSlotWithFd_spec (s : Sys) (ext : Int) (l : List (Option Nat))
    (slot : Option Nat) (h : findSlotWithFd s ext l = some slot) :
    tu_fileno s slot = ext ∧ slot ∈ l := by
  induction l with
  | nil => simp [findSlotWithFd] at h
  | cons a rest ih =>
    by_cases ha : tu_fileno s a = ext
    · rw [findSlotWithFd, if_pos ha] at h
      obtain rfl : a = slot := by simpa using h
      exact ⟨ha, List.mem_cons_self a rest⟩
    · rw [findSlotWithFd, if_neg ha] at h
      obtain ⟨h1, h2⟩ := ih h
      exact ⟨h1, List.mem_cons_of_mem a h2⟩

theorem findSlotWithFd_of_no_match (s : Sys) (ext : Int) (l : List (Option Nat))
    (h : ∀ slot ∈ l, tu_fileno s slot ≠ ext) :
    findSlotWithFd s ext l = none := by
  induction l with
  | nil => rfl
  | cons a rest ih =>
    rw [findSlotWithFd, if_neg (h a (List.mem_cons_self a rest))]
    exact ih (fun slot hs => h slot (List.mem_cons_of_mem a hs))

theorem dial_target_delta (s : Sys) (id g : Nat) (t tt : TU)
    (h : getTU s id = some t) (hg : g ≠ id) (htt : getTU s g = some tt)
    (hfd : tt.fd ≠ t.fd) :
    deltaTo s (tu_dial s (some id) (some g)).1 t.fd =
      (if t.state ≠ .dialTone then [stateLine s t]
       else if tt.target.isSome ∨ tt.state ≠ .onHook then ["BUSY SIGNAL\r\n"]
       else ["RING BACK\r\n"]) := by
  by_cases hst : t.state = .dialTone
  · by_cases hbusy : tt.target.isSome ∨ tt.state ≠ .onHook
    · have hout : (tu_dial s (some id) (some g)).1.out =
          s.out ++ [(t.fd, "BUSY SIGNAL\r\n")] := by
        simp [tu_dial, h, htt, hst, hbusy, out_write, out_setTU, Ne.symm hg]
      rw [deltaTo_of_append _ _ _ _ hout]
      simp [hst, hbusy]
    · have hout : (tu_dial s (some id) (some g)).1.out =
          s.out ++ [(t.fd, "RING BACK\r\n"), (tt.fd, "RINGING\r\n")] := by
        simp [tu_dial, h, htt, hst, hbusy, out_tu_ref, out_write, out_setTU, Ne.symm hg]
      rw [deltaTo_of_append _ _ _ _ hout]
      simp [hst, hbusy, hfd]
  · have hout : (tu_dial s (some id) (some g)).1.out =
        s.out ++ [(t.fd, stateLine s t)] := by
      simp [tu_dial, h, htt, hst, out_write, Ne.symm hg]
    rw [deltaTo_of_append _ _ _ _ hout]
    simp [hst]

/-! ## Claims -/

/-- Claim C1 (code bug). The spec and the doc comment of `tu_dial`
(tu.c lines 122-124) say a TU not in TU_DIAL_TONE is unaffected by any
dial, but the `tu == target` branch (tu.c lines 190-196) runs before the
state test: a TU in ON_HOOK that dials itself transitions to BUSY_SIGNAL
(and is sent a `BUSY SIGNAL` line) instead of being left unchanged. -/
theorem tu_dial_self_ignores_state_check :
    getTU sA 1 = some ⟨4, none, .onHook, 1⟩ ∧
    TUState.onHook ≠ TUState.dialTone ∧
    getTU (tu_dial sA (some 1) (some 1)).1 1 = some ⟨4, none, .busySignal, 1⟩ ∧
    deltaTo sA (tu_dial sA (some 1) (some 1)).1 4 = ["BUSY SIGNAL\r\n"] := by
  refine ⟨rfl, by decide, rfl, rfl⟩

/-- Claim C2 (code bug). Invariant P2 holds in the reachable state where
A (fd 4) and B (fd 5) are CONNECTED, but after A then issues `dial 4`
(dialing itself through `pbx_dial`), the reachable resulting state has
A.state = BUSY_SIGNAL while A.peer is still B and B is still CONNECTED
to A, violating both halves of P2. -/
theorem reachable_state_violates_P2 :
    P2holds sConn = true ∧
    getTU sSelfDial 1 = some ⟨4, some 2, .busySignal, 2⟩ ∧
    getTU sSelfDial 2 = some ⟨5, some 1, .connected, 2⟩ ∧
    P2holds sSelfDial = false := by
  refine ⟨rfl, rfl, rfl, rfl⟩

/-- Claim C3 (code bug). `pbx_register` succeeds on a fresh TU and sends
the `ON HOOK <ext>` notification, but leaves the TU's ref_count at 1:
the source never calls `tu_ref` there, although its own doc comment
(pbx.c lines 72-73) says the reference count is increased. -/
theorem pbx_register_sends_notification_but_keeps_refcount :
    (pbx_register sA 1 4).2 = 0 ∧
    getTU (pbx_register sA 1 4).1 1 = some ⟨4, none, .onHook, 1⟩ ∧
    (pbx_register sA 1 4).1.out = [(4, "ON HOOK 4\r\n")] := by
  refine ⟨rfl, rfl, rfl⟩

/-- Claim C4 counterexample: a registered TU in ON_HOOK that issues
`hangup` gets no notification line at all (tu.c lines 388-391 return
without any `dprintf`), so "exactly one notification line after every
command" fails. -/
theorem hangup_onHook_writes_nothing :
    getTU sABreg 1 = some ⟨4, none, .onHook, 1⟩ ∧
    deltaTo sABreg (tu_hangup sABreg (some 1)).1 4 = [] := by
  refine ⟨rfl, rfl⟩

/-- Claim C4 (amended): after every command, exactly one notification
line rendering the TU's resulting state is written to the initiating
TU's socket, except that `hangup` issued in ON_HOOK and `chat` issued in
any non-CONNECTED state write nothing. -/
theorem tu_commands_notification_lines (s : Sys) (id g : Nat) (t tt : TU)
    (msg : String)
    (h : getTU s id = some t) (hwf : tuWf s t = true)
    (hg : g ≠ id) (htt : getTU s g = some tt) (hfd : tt.fd ≠ t.fd) :
    (deltaTo s (tu_pickup s (some id)).1 t.fd =
      (match t.state with
       | .onHook => ["DIAL TONE\r\n"]
       | .ringing => ["CONNECTED " ++ toString (derefFd s t.target) ++ "\r\n"]
       | _ => [stateLine s t])) ∧
    (deltaTo s (tu_hangup s (some id)).1 t.fd =
      (match t.state with
       | .onHook => []
       | _ => ["ON HOOK " ++ toString t.fd ++ "\r\n"])) ∧
    (deltaTo s (tu_chat s (some id) msg).1 t.fd =
      (match t.state with
       | .connected => ["CONNECTED " ++ toString (derefFd s t.target) ++ "\r\n"]
       | _ => [])) ∧
    (deltaTo s (tu_dial s (some id) none).1 t.fd =
      (match t.state with
       | .dialTone => ["ERROR\r\n"]
       | _ => [stateLine s t])) ∧
    (deltaTo s (tu_dial s (some id) (some id)).1 t.fd = ["BUSY SIGNAL\r\n"]) ∧
    (deltaTo s (tu_dial s (some id) (some g)).1 t.fd =
      (if t.state ≠ .dialTone then [stateLine s t]
       else if tt.target.isSome ∨ tt.state ≠ .onHook then ["BUSY SIGNAL\r\n"]
       else ["RING BACK\r\n"])) :=
  ⟨pickup_delta s id t h hwf,
   hangup_delta s id t h hwf,
   chat_delta s id t msg h hwf,
   dial_none_delta s id t h,
   dial_self_delta s id t h,
   dial_target_delta s id g t tt h hg htt hfd⟩

/-- Witness for C4's amended theorem: instantiated at the reachable
state where A (id 1, fd 4) and B (id 2, fd 5) are CONNECTED. -/
theorem tu_commands_notification_lines_witness :
    (deltaTo sConn (tu_pickup sConn (some 1)).1 4 = ["CONNECTED 5\r\n"]) ∧
    (deltaTo sConn (tu_hangup sConn (some 1)).1 4 = ["ON HOOK 4\r\n"]) ∧
    (deltaTo sConn (tu_chat sConn (some 1) "hi").1 4 = ["CONNECTED 5\r\n"]) ∧
    (deltaTo sConn (tu_dial sConn (some 1) none).1 4 = ["CONNECTED 5\r\n"]) ∧
    (deltaTo sConn (tu_dial sConn (some 1) (some 1)).1 4 = ["BUSY SIGNAL\r\n"]) ∧
    (deltaTo sConn (tu_dial sConn (some 1) (some 2)).1 4 = ["CONNECTED 5\r\n"]) :=
  tu_commands_notification_lines sConn 1 2
    ⟨4, some 2, .connected, 2⟩ ⟨5, some 1, .connected, 2⟩ "hi"
    rfl rfl (by decide) rfl (by decide)

/-- Claim C5 counterexample: the line `tu_chat` writes to the peer's
socket begins with the lowercase verb `chat` (tu.c line 424), not `CHAT`
as the spec renders it. -/
theorem chat_line_is_lowercase :
    deltaTo sConn (tu_chat sConn (some 1) "hello").1 5 = ["chat hello\r\n"] ∧
    ("chat hello\r\n" : String) ≠ "CHAT hello\r\n" := by
  refine ⟨rfl, by decide⟩

/-- Claim C5 (amended): when a CONNECTED TU issues chat(msg), exactly one
additional line `chat <msg>` (lowercase verb), CR LF-terminated, is
written to the peer's socket, and the TU heap — in particular both TUs'
states — is unchanged. -/
theorem chat_connected_delivers_one_line (s : Sys) (id pid : Nat) (t pt : TU)
    (msg : String)
    (h : getTU s id = some t) (hst : t.state = .connected)
    (htg : t.target = some pid) (hp : getTU s pid = some pt)
    (hfd : pt.fd ≠ t.fd) :
    deltaTo s (tu_chat s (some id) msg).1 pt.fd = ["chat " ++ msg ++ "\r\n"] ∧
    (tu_chat s (some id) msg).1.tus = s.tus ∧
    (tu_chat s (some id) msg).2 = 0 := by
  have hout : (tu_chat s (some id) msg).1.out =
      s.out ++ [(pt.fd, "chat " ++ msg ++ "\r\n"), (t.fd, stateLine s t)] := by
    simp [tu_chat, h, hst, htg, hp, out_write, stateLine_write]
  refine ⟨?_, ?_, ?_⟩
  · rw [deltaTo_of_append _ _ _ _ hout]
    simp [Ne.symm hfd]
  · simp [tu_chat, h, hst, htg, hp, write]
  · simp [tu_chat, h, hst, htg, hp]

/-- Witness for C5's amended theorem at the reachable CONNECTED state of
A (id 1, fd 4) and B (id 2, fd 5). -/
theorem chat_connected_delivers_one_line_witness :
    deltaTo sConn (tu_chat sConn (some 1) "hello").1 5 = ["chat hello\r\n"] ∧
    (tu_chat sConn (some 1) "hello").1.tus = sConn.tus ∧
    (tu_chat sConn (some 1) "hello").2 = 0 :=
  chat_connected_delivers_one_line sConn 1 2
    ⟨4, some 2, .connected, 2⟩ ⟨5, some 1, .connected, 2⟩ "hello"
    rfl rfl rfl rfl (by decide)

/-- Claim C6: `tu_extension` returns exactly `tu_fileno`; the server
registers a fresh TU with `ext = connfd` and the `ON HOOK <ext>` line
reports that fd, after which the TU's extension is its registration-time
fd; `pbx_dial` resolves a dialed integer by scanning the registry for a
slot whose `tu_fileno` equals it and passes that slot to `tu_dial`. -/
theorem extension_and_dial_use_fd (s sB : Sys) (tuOpt : Option Nat)
    (id tidr tid' : Nat) (fd ext : Int)
    (hfresh : getTU sB id = none)
    (hslot : firstEmptySlot sB.registry ≠ none)
    (hres : resolveTarget s ext = some tid')
    (hreg : isRegistered s tidr = true) :
    tu_extension s tuOpt = tu_fileno s tuOpt ∧
    ((pbx_register (tu_init sB id fd) id fd).2 = 0 ∧
     (pbx_register (tu_init sB id fd) id fd).1.out =
       sB.out ++ [(fd, "ON HOOK " ++ toString fd ++ "\r\n")] ∧
     tu_extension (pbx_register (tu_init sB id fd) id fd).1 (some id) = fd) ∧
    (tu_fileno s (some tid') = ext ∧ (some tid') ∈ s.registry) ∧
    pbx_dial s tidr ext = ((tu_dial s (some tidr) (resolveTarget s ext)).1, 0) := by
  refine ⟨rfl, ?_, ?_, ?_⟩
  · rcases hsl : firstEmptySlot sB.registry with _ | i
    · exact absurd hsl hslot
    · refine ⟨?_, ?_, ?_⟩
      · simp [pbx_register, tu_init, hsl]
      · simp [pbx_register, tu_init, hsl, write]
      · have hget : getTU (pbx_register (tu_init sB id fd) id fd).1 id =
            some ⟨fd, none, .onHook, 1⟩ := by
          have hini := getTU_tu_init sB id fd hfresh
          unfold getTU at hini ⊢
          simp only [pbx_register, tu_init, hsl, write]
          unfold tu_init at hini
          exact hini
        simp [tu_extension, tu_fileno, hget]
  · unfold resolveTarget at hres
    rcases hfind : findSlotWithFd s ext s.registry with _ | slot
    · rw [hfind] at hres
      simp at hres
    · rw [hfind] at hres
      obtain ⟨h1, h2⟩ := findSlotWithFd_spec s ext s.registry slot hfind
      subst hres
      exact ⟨h1, h2⟩
  · simp [pbx_dial, hreg]

/-- Witness for C6's theorem: fresh registration of id 1 / fd 4 into the
empty system, and dial resolution of extension 5 in the CONNECTED
two-client state. -/
theorem extension_and_dial_use_fd_witness :
    tu_extension sConn (some 1) = tu_fileno sConn (some 1) ∧
    ((pbx_register (tu_init sysInit 1 4) 1 4).2 = 0 ∧
     (pbx_register (tu_init sysInit 1 4) 1 4).1.out =
       sysInit.out ++ [(4, "ON HOOK " ++ toString (4 : Int) ++ "\r\n")] ∧
     tu_extension (pbx_register (tu_init sysInit 1 4) 1 4).1 (some 1) = 4) ∧
    (tu_fileno sConn (some 2) = 5 ∧ (some 2) ∈ sConn.registry) ∧
    pbx_dial sConn 1 5 = ((tu_dial sConn (some 1) (resolveTarget sConn 5)).1, 0) :=
  extension_and_dial_use_fd sConn sysInit (some 1) 1 1 2 4 5
    rfl (by decide) rfl rfl

/-- Claim C7 counterexample: `dial 5x` has a malformed decimal argument,
yet the dispatcher does not treat the target as none: `atoi` parses the
leading `5` and, with a TU registered at fd 5, `pbx_dial` resolves it, so
the DIAL_TONE dialer ends up paired in RING_BACK instead of ERROR. -/
theorem malformed_dial_arg_not_treated_as_none :
    specWellFormedDecimal "5x" = false ∧
    atoi "5x" = 5 ∧
    resolveTarget sPick (atoi "5x") = some 2 ∧
    getTU (dispatch_dial sPick 1 "5x").1 1 = some ⟨4, some 2, .ringBack, 2⟩ := by
  refine ⟨by decide, by decide, rfl, rfl⟩

/-- Claim C7 (amended): the dispatcher converts the `dial` argument with
C `atoi` (longest leading optional-sign digit run after whitespace, 0 when
none); the target is none exactly when no registry slot's fileno equals
that value, and only then does the dialer transition to ERROR from
DIAL_TONE (one `ERROR` line) and merely re-emit its state otherwise. -/
theorem dial_unmatched_atoi_value (s : Sys) (id : Nat) (t : TU) (arg : String)
    (h : getTU s id = some t)
    (hreg : isRegistered s id = true)
    (hnone : ∀ slot ∈ s.registry, tu_fileno s slot ≠ atoi arg) :
    getTU (dispatch_dial s id arg).1 id =
      some (if t.state = .dialTone then withState t .error else t) ∧
    deltaTo s (dispatch_dial s id arg).1 t.fd =
      (if t.state = .dialTone then ["ERROR\r\n"] else [stateLine s t]) := by
  have hfind : findSlotWithFd s (atoi arg) s.registry = none :=
    findSlotWithFd_of_no_match s (atoi arg) s.registry hnone
  have hrt : resolveTarget s (atoi arg) = none := by
    unfold resolveTarget
    rw [hfind]
  have hd : (dispatch_dial s id arg).1 = (tu_dial s (some id) none).1 := by
    unfold dispatch_dial pbx_dial
    rw [if_pos hreg, hrt]
  rw [hd]
  by_cases hst : t.state = .dialTone
  · have heq : tu_dial s (some id) none =
        (write (setTU s id (withState t .error)) t.fd "ERROR\r\n", -1) := by
      simp [tu_dial, h, hst]
    constructor
    · rw [heq, if_pos hst]
      rw [getTU_write]
      exact getTU_set_self s id t _ h
    · rw [if_pos hst, deltaTo_of_append _ _ [(t.fd, "ERROR\r\n")] _
        (by rw [heq]; simp [write, out_setTU])]
      simp
  · have heq : tu_dial s (some id) none = (write s t.fd (stateLine s t), 0) := by
      simp [tu_dial, h, hst]
    constructor
    · rw [heq, if_neg hst]
      exact h
    · rw [if_neg hst, deltaTo_of_append _ _ [(t.fd, stateLine s t)] _ (by rw [heq]; simp [write])]
      simp

/-- Witness for C7's amended theorem: in the two-client state with A in
DIAL_TONE, `dial abc` parses to 0, matches no slot, and sends A to ERROR. -/
theorem dial_unmatched_atoi_value_witness :
    getTU (dispatch_dial sPick 1 "abc").1 1 =
      some (withState ⟨4, none, .dialTone, 1⟩ .error) ∧
    deltaTo sPick (dispatch_dial sPick 1 "abc").1 4 = ["ERROR\r\n"] := by
  have hmain := dial_unmatched_atoi_value sPick 1 ⟨4, none, .dialTone, 1⟩ "abc"
    rfl rfl (by decide)
  exact ⟨hmain.1, hmain.2⟩

/-- Claim C8: from ON_HOOK with no peer, `pickup` then `hangup` returns
the TU to exactly its original record, and the lines written to its
socket across the two commands are exactly `DIAL TONE` then
`ON HOOK <ext>`. -/
theorem pickup_then_hangup_roundtrip (s : Sys) (id : Nat) (t : TU)
    (h : getTU s id = some t) (hst : t.state = .onHook) :
    getTU (tu_hangup (tu_pickup s (some id)).1 (some id)).1 id = some t ∧
    deltaTo s (tu_hangup (tu_pickup s (some id)).1 (some id)).1 t.fd =
      ["DIAL TONE\r\n", "ON HOOK " ++ toString t.fd ++ "\r\n"] ∧
    (tu_pickup s (some id)).2 = 0 ∧
    (tu_hangup (tu_pickup s (some id)).1 (some id)).2 = 0 := by
  have h1 : tu_pickup s (some id) =
      (write (setTU s id (withState t .dialTone)) t.fd "DIAL TONE\r\n", 0) := by
    simp [tu_pickup, h, hst]
  have hg1 : getTU (tu_pickup s (some id)).1 id = some (withState t .dialTone) := by
    rw [h1]
    rw [getTU_write]
    exact getTU_set_self s id t _ h
  have h2 : tu_hangup (tu_pickup s (some id)).1 (some id) =
      (write (setTU (tu_pickup s (some id)).1 id (withState (withState t .dialTone) .onHook))
        (withState t .dialTone).fd
        ("ON HOOK " ++ toString (withState t .dialTone).fd ++ "\r\n"), 0) := by
    simp [tu_hangup, hg1, withState]
  have hfinal : withState (withState t .dialTone) .onHook = t := by
    cases t
    simp only [withState, TU.mk.injEq]
    simp_all
  refine ⟨?_, ?_, ?_, ?_⟩
  · rw [h2]
    simp only
    rw [getTU_write, hfinal]
    exact getTU_set_self (tu_pickup s (some id)).1 id _ t hg1
  · have hout : (tu_hangup (tu_pickup s (some id)).1 (some id)).1.out =
        s.out ++ [(t.fd, "DIAL TONE\r\n"), (t.fd, "ON HOOK " ++ toString t.fd ++ "\r\n")] := by
      rw [h2]
      simp [write, out_setTU, h1, withState]
    rw [deltaTo_of_append _ _ _ _ hout]
    simp
  · rw [h1]
  · rw [h2]

/-- Witness for C8's theorem: client A freshly registered at fd 4. -/
theorem pickup_then_hangup_roundtrip_witness :
    getTU (tu_hangup (tu_pickup sABreg (some 1)).1 (some 1)).1 1 =
      some ⟨4, none, .onHook, 1⟩ ∧
    deltaTo sABreg (tu_hangup (tu_pickup sABreg (some 1)).1 (some 1)).1 4 =
      ["DIAL TONE\r\n", "ON HOOK 4\r\n"] ∧
    (tu_pickup sABreg (some 1)).2 = 0 ∧
    (tu_hangup (tu_pickup sABreg (some 1)).1 (some 1)).2 = 0 :=
  pickup_then_hangup_roundtrip sABreg 1 ⟨4, none, .onHook, 1⟩ rfl rfl

/-- Claim C10: every TU operation invoked on a NULL TU pointer returns -1
with the system state untouched (so nothing is written to any socket),
and `tu_fileno` of NULL is -1. -/
theorem null_tu_operations_return_error (s : Sys) (target : Option Nat)
    (msg : String) :
    tu_dial s none target = (s, -1) ∧
    tu_pickup s none = (s, -1) ∧
    tu_hangup s none = (s, -1) ∧
    tu_chat s none msg = (s, -1) ∧
    tu_fileno s none = -1 :=
  ⟨rfl, rfl, rfl, rfl, rfl⟩
